import Mathlib

/-!
Verification of the grading orchestration layer of the DMOJ judge-server
(`dmoj/graders/standard.py` and `dmoj/graders/bridged.py`), as a shallow
embedding in Lean 4.  External collaborators (the cptbox sandbox, checker
callables, the contrib-adapter registry, `dmoj/result.py`) are not part of
the given source tree; where their behaviour matters they are modelled from
the specification and marked as such in their doc comments.
-/

namespace Judge

/-- Byte strings are modelled as lists of naturals (only length and equality
of captured output matter for the verified properties). -/
def ByteSeq : Type := List Nat

deriving instance DecidableEq for ByteSeq

instance : Append ByteSeq := ⟨List.append⟩

/-- Modelled from the spec: the verdict flag constants of `Result`
(`dmoj/result.py`, not under the given source tree).  The spec describes a
combinable bitmask of flags — AC, WA, RTE, TLE, MLE, IR, OLE, IE — so each
flag is a distinct bit. -/
def Result.AC : Nat := 1

/-- Modelled from the spec: the wrong-answer flag bit. -/
def Result.WA : Nat := 2

/-- Modelled from the spec: the runtime-error flag bit. -/
def Result.RTE : Nat := 4

/-- Modelled from the spec: the time-limit-exceeded flag bit. -/
def Result.TLE : Nat := 8

/-- Modelled from the spec: the memory-limit-exceeded flag bit. -/
def Result.MLE : Nat := 16

/-- Modelled from the spec: the invalid-return flag bit. -/
def Result.IR : Nat := 32

/-- Modelled from the spec: the output-limit-exceeded flag bit. -/
def Result.OLE : Nat := 64

/-- Modelled from the spec: the internal-error flag bit. -/
def Result.IE : Nat := 128

/-- The rich checker result structure (`dmoj/result.py`, external):
`passed`, `points`, optional `feedback` / `extended_feedback` text.
Absent feedback (`None` or the empty string, both falsy in Python) is
modelled as the empty string. -/
structure CheckerResult where
  passed : Bool
  points : ℚ
  feedback : String := ""
  extended_feedback : String := ""
  deriving DecidableEq

/-- `CheckerOutput`: checkers either return a plain boolean or a rich
`CheckerResult` (`dmoj/checkers`, external interface). -/
inductive CheckerOutput where
  | ofBool (b : Bool)
  | ofResult (r : CheckerResult)
  deriving DecidableEq

/-- Per-case configuration consumed by the graders (`case.config`). -/
structure TestCaseConfig where
  output_limit_length : Nat
  wall_time_factor : ℚ := 1
  deriving DecidableEq

/-- The slice of `TestCase` the graders read (`dmoj/problem.py`, external
interface): point value, per-case config, the expected-output bytes
(`output_data()`), the input bytes, position/batch metadata. -/
structure TestCase where
  points : ℚ
  config : TestCaseConfig
  output_data : ByteSeq := []
  input_data : ByteSeq := []
  position : Nat := 0
  batch : Nat := 0
  has_binary_data : Bool := false
  deriving DecidableEq

/-- The mutable verdict record for one test case (`dmoj/result.py`,
external; field set taken from the spec's data model).  `Result(case)`
starts with a clear flag set, zero points, empty feedback and no captured
output. -/
structure Result where
  result_flag : Nat := 0
  points : ℚ := 0
  feedback : String := ""
  extended_feedback : String := ""
  proc_output : ByteSeq := []
  execution_time : ℚ := 0
  deriving DecidableEq

/-- State of a sandboxed process handle as seen by the grader:
`sandbox_flags` is the verdict-flag contribution the sandbox will report
post-mortem (TLE/MLE/RTE/IR bits), and the booleans record the
`mark_ole` / `kill` / `wait` calls issued by the grader. -/
structure ProcState where
  sandbox_flags : Nat := 0
  ole_marked : Bool := false
  killed : Bool := false
  waited : Bool := false
  deriving DecidableEq

/-- `process.wait()`. -/
def ProcState.wait (p : ProcState) : ProcState := { p with waited := true }

/-- `process.kill()`. -/
def ProcState.kill (p : ProcState) : ProcState := { p with killed := true }

/-- `process.mark_ole()`. -/
def ProcState.mark_ole (p : ProcState) : ProcState := { p with ole_marked := true }

/-- Oracle input for one sandboxed run: the raw bytes the submission
process writes to stdout/stderr, the sandbox's post-mortem flag
contribution and its measured execution time. -/
structure RawRun where
  stdout : ByteSeq
  stderr : ByteSeq
  sandbox_flags : Nat := 0
  time : ℚ := 0

/-- Modelled from the spec: `TracedPopen.communicate(None, outlimit,
errlimit)` (`dmoj/cptbox`, not under the given source tree) — a bounded
read that raises `OutputLimitExceeded` (marking the process OLE) once the
captured stdout crosses `outlimit`, and caps stderr capture at
`errlimit`. -/
def communicate (p : ProcState) (raw : RawRun) (outlimit errlimit : Nat) :
    ProcState × Except Unit (ByteSeq × ByteSeq) :=
  if raw.stdout.length > outlimit then (p.mark_ole, .error ())
  else (p, .ok (raw.stdout, raw.stderr.take errlimit))

/-- Which stdout/stderr capture path `StandardGrader` uses
(`memfd_output`): a memory-backed buffer or a bounded pipe read. -/
inductive CaptureMode where
  | memfd
  | pipe
  deriving DecidableEq

/-- `StandardGrader._interact_with_process`, memory-backed branch
(`memfd_output = True`): wait for the process, capture the full stdout,
mark OLE post-hoc when its length exceeds `output_limit_length`, and
return the captured stderr. -/
def interact_memfd (case : TestCase) (result : Result) (p : ProcState) (raw : RawRun) :
    Result × ProcState × ByteSeq :=
  let p := p.wait
  let result := { result with proc_output := raw.stdout }
  let p := if raw.stdout.length > case.config.output_limit_length then p.mark_ole else p
  (result, p, raw.stderr)

/-- `StandardGrader._interact_with_process`, pipe branch
(`memfd_output = False`): `communicate` with `outlimit =
output_limit_length` and `errlimit = 1048576`; on `OutputLimitExceeded`
the stderr is dropped (`error = b''`) and the process is killed; the
process is waited on in the `finally` block on both branches. -/
def interact_pipe (case : TestCase) (result : Result) (p : ProcState) (raw : RawRun) :
    Result × ProcState × ByteSeq :=
  match communicate p raw case.config.output_limit_length 1048576 with
  | (p, .ok (out, err)) => ({ result with proc_output := out }, p.wait, err)
  | (p, .error _) => (result, (p.kill).wait, [])

/-- `StandardGrader._interact_with_process`, dispatching on the capture
mode. -/
def interact (mode : CaptureMode) (case : TestCase) (result : Result) (p : ProcState)
    (raw : RawRun) : Result × ProcState × ByteSeq :=
  match mode with
  | .memfd => interact_memfd case result p raw
  | .pipe => interact_pipe case result p raw

/-- Modelled from the spec: `Executor.populate_result(error, result,
process)` (external sandbox collaborator) — copies the sandbox's
post-mortem flag contribution into the result, ORs in the OLE flag when
the process was marked OLE, and records the execution time. -/
def populate_result (result : Result) (p : ProcState) (raw : RawRun) : Result :=
  { result with
    result_flag := result.result_flag ||| p.sandbox_flags |||
      (if p.ole_marked then Result.OLE else 0),
    execution_time := raw.time }

/-- Exceptions a checker callable can raise: `UnicodeDecodeError` (the
only one `StandardGrader.check_result` catches) or anything else, which
propagates. -/
inductive CheckerExc where
  | unicodeDecodeError
  | other (msg : String)
  deriving DecidableEq

/-- A checker callable together with its optional `run_on_error`
capability attribute (`getattr(checker.func, 'run_on_error', False)`).
The callable receives the submission output, the expected output and the
case's point value (the remaining keyword arguments of the call —
source, language, input view, position, batch, timing, ids — are
forwarded context that the grader merely reads off `case`/`result` and
does not influence the verified control flow). -/
structure Checker where
  run_on_error : Bool
  run : ByteSeq → ByteSeq → ℚ → Except CheckerExc CheckerOutput

/-- The guard of `StandardGrader.check_result`:
`not result.result_flag or getattr(checker.func, 'run_on_error', False)`.
The checker callable is invoked exactly when this holds. -/
def check_result_invoked (checker : Checker) (result : Result) : Bool :=
  decide (result.result_flag = 0) || checker.run_on_error

/-- The `try`/`except UnicodeDecodeError` body of
`StandardGrader.check_result`: call the checker on
`result.proc_output` and `case.output_data()`; a `UnicodeDecodeError` is
swallowed into `CheckerResult(False, 0, feedback='invalid unicode')`;
any other exception propagates. -/
def checker_call (checker : Checker) (case : TestCase) (result : Result) :
    Except CheckerExc CheckerOutput :=
  match checker.run result.proc_output case.output_data case.points with
  | .ok check => .ok check
  | .error .unicodeDecodeError =>
      .ok (.ofResult { passed := false, points := 0, feedback := "invalid unicode" })
  | .error e => .error e

/-- `StandardGrader.check_result`: run the checker only when the
submission has not already failed or the checker declares
`run_on_error`; otherwise the outcome is the guaranteed-fail boolean
`False`. -/
def check_result (checker : Checker) (case : TestCase) (result : Result) :
    Except CheckerExc CheckerOutput :=
  if check_result_invoked checker result then checker_call checker case result
  else .ok (.ofBool false)

/-- The normalization step of `StandardGrader.grade`: a boolean checker
return becomes `CheckerResult(check, case.points if check else 0.0)`;
a rich result is used as-is. -/
def normalize_check (case : TestCase) (check : CheckerOutput) : CheckerResult :=
  match check with
  | .ofResult r => r
  | .ofBool b => { passed := b, points := if b then case.points else 0 }

/-- The verdict flag `[Result.WA, Result.AC][check.passed]` OR'd into
`result.result_flag` at the end of `StandardGrader.grade`. -/
def verdict_flag (check : CheckerResult) : Nat :=
  if check.passed then Result.AC else Result.WA

/-- The merge step at the end of `StandardGrader.grade`: OR the verdict
flag in, copy the checker's points, and take the checker's feedback and
extended feedback only when non-empty (`check.feedback or
result.feedback`). -/
def merge_check (result : Result) (check : CheckerResult) : Result :=
  { result with
    result_flag := result.result_flag ||| verdict_flag check,
    points := check.points,
    feedback := if check.feedback = "" then result.feedback else check.feedback,
    extended_feedback :=
      if check.extended_feedback = "" then result.extended_feedback
      else check.extended_feedback }

/-- The state of a freshly graded case after `_launch_process`,
`_interact_with_process` and `populate_result`: the result as populated
from the captured output and the sandbox's post-mortem report.  The
launch step is the external sandbox; its effect is the `RawRun`
oracle. -/
def populated (mode : CaptureMode) (case : TestCase) (raw : RawRun) : Result :=
  let out := interact mode case {} { sandbox_flags := raw.sandbox_flags } raw
  populate_result out.1 out.2.1 raw

/-- `StandardGrader.grade`: launch, interact, populate, run the checker
gate, normalize its output and merge it into the final `Result`.  An
uncaught checker exception propagates out of `grade`. -/
def grade (mode : CaptureMode) (checker : Checker) (case : TestCase) (raw : RawRun) :
    Except CheckerExc Result :=
  match check_result checker case (populated mode case raw) with
  | .error e => .error e
  | .ok check => .ok (merge_check (populated mode case raw) (normalize_check case check))

/-- The exception taxonomy of `dmoj/error.py` relevant to the graders:
`CompileError` (contestant-attributable) and `InternalError`
(judge-attributable).  The two are distinct constructors of a sum, never
interconvertible. -/
inductive JudgeError where
  | compileError (msg : String)
  | internalError (msg : String)
  deriving DecidableEq

/-- A compiled, launchable artifact (opaque to the orchestration
layer). -/
structure Binary where
  id : Nat
  deriving DecidableEq

/-- The handler configuration (`problem.config.interactive`) read by
`BridgedInteractiveGrader.__init__`: the optional `type` key selecting a
contrib adapter (`handler_data.get('type', 'default')`). -/
structure HandlerData where
  type_key : Option String
  deriving DecidableEq

/-- The fields of a constructed `BridgedInteractiveGrader` relevant to
the claims. -/
structure BridgedGrader where
  interactor_binary : Binary
  contrib_type : String
  deriving DecidableEq

/-- `BridgedInteractiveGrader.__init__` after the base constructor:
compile the interactor (`_generate_interactor_binary`), rethrowing a
`CompileError` as `InternalError('interactor failed compiling')`; then
resolve the contrib type and reject it with an `InternalError` when it
is not in the registry of contrib modules.  The compile outcome and the
registry (`dmoj/contrib`, not under the given source tree) are
parameters. -/
def bridged_init (contrib_modules : List String)
    (compile_outcome : Except JudgeError Binary) (handler : HandlerData) :
    Except JudgeError BridgedGrader :=
  match compile_outcome with
  | .error (.compileError _) => .error (.internalError "interactor failed compiling")
  | .error e => .error e
  | .ok bin =>
      let contrib_type := handler.type_key.getD "default"
      if contrib_type ∈ contrib_modules then
        .ok { interactor_binary := bin, contrib_type := contrib_type }
      else .error (.internalError (contrib_type ++ " is not a valid contrib module"))

/-- `BridgedInteractiveGrader.check_result`: the interactor's stderr is
read and `parse_return_code` is evaluated FIRST (it may raise an
`InternalError` for a crashed interactor, which propagates even when the
submission already failed); only then is the result gated by
`(not result.result_flag) and parsed_result`. -/
def bridged_check_result (parsed : Except JudgeError CheckerOutput) (result : Result) :
    Except JudgeError CheckerOutput :=
  match parsed with
  | .error e => .error e
  | .ok parsed_result =>
      .ok (if result.result_flag = 0 then parsed_result else .ofBool false)

/-- The shapes the `interactive.files` config entry can unwrap to in
`BridgedInteractiveGrader._generate_interactor_binary`: a plain string,
a list of strings, or anything else (int, mapping, null, ...). -/
inductive ConfigFiles where
  | str (s : String)
  | list (l : List String)
  | other
  deriving DecidableEq

/-- Python runtime faults reachable by the filename-resolution code. -/
inductive PyError where
  | unboundLocal (name : String)
  deriving DecidableEq

/-- `os.path.join(problem_root, f)`. -/
def path_join (root f : String) : String := root ++ "/" ++ f

/-- The filename-resolution prefix of
`BridgedInteractiveGrader._generate_interactor_binary`: `filenames` is
assigned only when `files` is a `str` or unwraps to a `list`; for any
other shape the subsequent comprehension
`[os.path.join(problem_root, f) for f in filenames]` reads the unbound
local `filenames`. -/
def generate_interactor_filenames (files : ConfigFiles) (problem_root : String) :
    Except PyError (List String) :=
  match files with
  | .str s => .ok ([s].map (path_join problem_root))
  | .list l => .ok (l.map (path_join problem_root))
  | .other => .error (.unboundLocal "filenames")

/-- Events of the per-case control flow of
`BridgedInteractiveGrader._launch_process` and
`_interact_with_process`, in program order.  `pipe2 r w` is `os.pipe()`
returning descriptors `(r, w)`; `raise` marks an exception propagating
out of the grader from the preceding launch; `mktemp_close` is the
`with mktemp(...)` scope guard releasing the answer temp file (it runs
on every exit from the `with` block, exceptional or not). -/
inductive BEv where
  | pipe2 (r w : Nat)
  | close (fd : Nat)
  | launch_sub
  | launch_int
  | mktemp_open
  | mktemp_close
  | wait_sub
  | wait_int
  | read_stderr
  | raiseExc
  deriving DecidableEq

/-- `BridgedInteractiveGrader._launch_process` as an event trace,
parameterized by whether the submission launch succeeds.  Descriptors:
pipe 1 is submission-stdout → interactor-stdin (read end 3 =
`_interactor_stdin_pipe`, write end 4 = `submission_stdout_pipe`);
pipe 2 is interactor-stdout → submission-stdin (read end 5 =
`submission_stdin_pipe`, write end 6 = `_interactor_stdout_pipe`).
After a successful launch the submission-side ends 5 and 4 are closed
immediately; a failing launch propagates with nothing closed. -/
def bridged_launch_events (sub_launch_ok : Bool) : List BEv :=
  [.pipe2 3 4, .pipe2 5 6, .launch_sub] ++
    (if sub_launch_ok then [.close 5, .close 4] else [.raiseExc])

/-- `BridgedInteractiveGrader._interact_with_process` as an event trace,
parameterized by whether the interactor launch succeeds.  The answer
temp file is opened by `with mktemp(judge_output)`; after a successful
interactor launch the judge-held pipe ends 3 and 6 are closed
immediately, then the grader waits for the submission process and the
interactor process (in that order) and reads the submission's stderr
inside the `with` block; the scope guard then releases the temp file.
A failing interactor launch propagates through the `with` block: the
temp file is released, but descriptors 3 and 6 are never closed. -/
def bridged_interact_events (int_launch_ok : Bool) : List BEv :=
  [.mktemp_open, .launch_int] ++
    (if int_launch_ok then
      [.close 3, .close 6, .wait_sub, .wait_int, .read_stderr, .mktemp_close]
    else [.raiseExc, .mktemp_close])

/-- The whole per-case trace of an interactive `grade` call:
`_launch_process` followed, when the submission launch succeeded, by
`_interact_with_process`. -/
def bridged_grade_events (sub_launch_ok int_launch_ok : Bool) : List BEv :=
  bridged_launch_events sub_launch_ok ++
    (if sub_launch_ok then bridged_interact_events int_launch_ok else [])

/-- Judge-held resources: the open pipe descriptors and whether the
answer temp file still exists. -/
structure JudgeFDs where
  open_fds : List Nat
  temp_open : Bool
  deriving DecidableEq

/-- Effect of one event on the judge-held resources. -/
def applyEv (s : JudgeFDs) : BEv → JudgeFDs
  | .pipe2 r w => { s with open_fds := s.open_fds ++ [r, w] }
  | .close fd => { s with open_fds := s.open_fds.filter (fun x => x ≠ fd) }
  | .mktemp_open => { s with temp_open := true }
  | .mktemp_close => { s with temp_open := false }
  | _ => s

/-- Judge-held resources after a trace, starting from no open
descriptors and no temp file. -/
def runEvents (evs : List BEv) : JudgeFDs :=
  evs.foldl applyEv { open_fds := [], temp_open := false }

/-- Wall-clock model of a blocking `wait()` call: issued at time `now`
on a process that terminates at time `t`, it returns at `max now t`. -/
def waitUntil (now t : Nat) : Nat := max now t

/-- The earliest time `_interact_with_process` can reach its `return`:
it waits for the submission process (terminating at `t_sub`) and then
for the interactor process (terminating at `t_int`), in program order,
starting the waits at time `now`. -/
def bridged_return_time (now t_sub t_int : Nat) : Nat :=
  waitUntil (waitUntil now t_sub) t_int

/-! ## Helper lemmas -/

/-- The fixed `CheckerResult(False, 0, feedback='invalid unicode')`
produced when a checker raises a decode error. -/
def invalid_unicode_result : CheckerResult :=
  { passed := false, points := 0, feedback := "invalid unicode", extended_feedback := "" }

/-- The normalization of the guaranteed-fail boolean `False`. -/
def zero_fail_result : CheckerResult :=
  { passed := false, points := 0, feedback := "", extended_feedback := "" }

lemma checker_call_no_unicode_error (checker : Checker) (case : TestCase) (result : Result) :
    checker_call checker case result ≠ .error .unicodeDecodeError := by
  unfold checker_call
  rcases h : checker.run result.proc_output case.output_data case.points with e | c
  · cases e <;> simp
  · simp

lemma check_result_skipped (checker : Checker) (case : TestCase) (result : Result)
    (h : check_result_invoked checker result = false) :
    check_result checker case result = .ok (.ofBool false) := by
  simp [check_result, h]

lemma check_result_run (checker : Checker) (case : TestCase) (result : Result)
    (h : check_result_invoked checker result = true) :
    check_result checker case result = checker_call checker case result := by
  simp [check_result, h]

/-! ## Claims -/

/-- C2: whenever the `Result` already carries a non-zero failure flag and
the checker does not declare `run_on_error`, the checker callable is
never invoked (the outcome does not depend on the callable at all) and
the checker outcome is the guaranteed fail `False`, which normalizes to
a failing result worth 0 points; conversely the checker is invoked
(`check_result` is exactly the guarded checker call) whenever the flag
is clear or `run_on_error` is set. -/
theorem checker_gate (checker : Checker) (case : TestCase) (result : Result) :
    (result.result_flag ≠ 0 → checker.run_on_error = false →
      check_result_invoked checker result = false ∧
      check_result checker case result = .ok (.ofBool false) ∧
      (∀ checker2 : Checker, checker2.run_on_error = false →
        check_result checker2 case result = check_result checker case result) ∧
      normalize_check case (.ofBool false) = zero_fail_result) ∧
    (result.result_flag = 0 ∨ checker.run_on_error = true →
      check_result_invoked checker result = true ∧
      check_result checker case result = checker_call checker case result) := by
  constructor
  · intro hflag hroe
    have hinv : check_result_invoked checker result = false := by
      simp [check_result_invoked, hflag, hroe]
    refine ⟨hinv, check_result_skipped checker case result hinv, ?_, rfl⟩
    intro checker2 hroe2
    have hinv2 : check_result_invoked checker2 result = false := by
      simp [check_result_invoked, hflag, hroe2]
    rw [check_result_skipped checker2 case result hinv2,
      check_result_skipped checker case result hinv]
  · intro hor
    have hinv : check_result_invoked checker result = true := by
      rcases hor with h0 | hroe
      · simp [check_result_invoked, h0]
      · simp [check_result_invoked, hroe]
    exact ⟨hinv, check_result_run checker case result hinv⟩

/-- Witness for C2: a concrete already-failed case (TLE flag) with a
checker lacking `run_on_error`: the outcome is the guaranteed fail. -/
theorem checker_gate_witness :
    check_result { run_on_error := false, run := fun _ _ _ => .ok (.ofBool true) }
        { points := 1, config := { output_limit_length := 100 } }
        { result_flag := Result.TLE } = .ok (.ofBool false) :=
  ((checker_gate { run_on_error := false, run := fun _ _ _ => .ok (.ofBool true) }
      { points := 1, config := { output_limit_length := 100 } }
      { result_flag := Result.TLE }).1 (by decide) rfl).2.1

/-- C8: a `UnicodeDecodeError` raised by the checker callable is caught
locally: the outcome becomes a failing result with 0 points and literal
feedback "invalid unicode", and a decode error never propagates out of
`check_result` for any checker, case or result. -/
theorem checker_unicode_recovery (checker : Checker) (case : TestCase) (result : Result)
    (hinv : check_result_invoked checker result = true)
    (hrun : checker.run result.proc_output case.output_data case.points =
      .error .unicodeDecodeError) :
    check_result checker case result =
      .ok (.ofResult invalid_unicode_result) ∧
    (∀ (checker2 : Checker) (case2 : TestCase) (result2 : Result),
      check_result checker2 case2 result2 ≠ .error .unicodeDecodeError) := by
  constructor
  · rw [check_result_run checker case result hinv]
    unfold checker_call
    rw [hrun]
    rfl
  · intro checker2 case2 result2
    unfold check_result
    rcases h : check_result_invoked checker2 result2 with _ | _
    · simp
    · simpa using checker_call_no_unicode_error checker2 case2 result2

/-- Witness for C8: a concrete checker that always raises a decode
error yields the fixed "invalid unicode" zero-point fail. -/
theorem checker_unicode_recovery_witness :
    check_result { run_on_error := false, run := fun _ _ _ => .error .unicodeDecodeError }
        { points := 3, config := { output_limit_length := 10 } } {} =
      .ok (.ofResult invalid_unicode_result) :=
  (checker_unicode_recovery
    { run_on_error := false, run := fun _ _ _ => .error .unicodeDecodeError }
    { points := 3, config := { output_limit_length := 10 } } {} (by decide) rfl).1

/-- C4: constructing a `BridgedInteractiveGrader` whose configured
contrib type is not in the registry of contrib modules always yields an
`InternalError` (never a constructed grader), for every compile outcome
of the interactor binary. -/
theorem unknown_contrib_internal_error (contrib_modules : List String)
    (compile_outcome : Except JudgeError Binary) (handler : HandlerData)
    (h : handler.type_key.getD "default" ∉ contrib_modules) :
    ∃ msg, bridged_init contrib_modules compile_outcome handler =
      .error (.internalError msg) := by
  rcases compile_outcome with e | bin
  · cases e
    · exact ⟨"interactor failed compiling", rfl⟩
    · exact ⟨_, rfl⟩
  · refine ⟨handler.type_key.getD "default" ++ " is not a valid contrib module", ?_⟩
    simp [bridged_init, h]

/-- Witness for C4: the contrib type "grader" is not in the registry
containing only "default", so construction fails with an internal
error. -/
theorem unknown_contrib_internal_error_witness :
    ∃ msg, bridged_init ["default"] (.ok { id := 0 }) { type_key := some "grader" } =
      .error (.internalError msg) :=
  unknown_contrib_internal_error ["default"] (.ok { id := 0 })
    { type_key := some "grader" } (by decide)

/-- C5: an interactor compile failure is rethrown at construction as
`InternalError('interactor failed compiling')`, and the internal-error
signal is distinct from the plain compile-error signal used for a
submission's own compile failure. -/
theorem interactor_compile_failure_internal (contrib_modules : List String)
    (handler : HandlerData) (msg : String) :
    bridged_init contrib_modules (.error (.compileError msg)) handler =
      .error (.internalError "interactor failed compiling") ∧
    (∀ m m2 : String, JudgeError.internalError m ≠ JudgeError.compileError m2) := by
  exact ⟨rfl, fun m m2 => by simp⟩

/-- C10: filename resolution in `_generate_interactor_binary` succeeds
exactly when the `files` config entry is a string or unwraps to a list;
any other shape reaches the unbound local `filenames` (a Python
`UnboundLocalError`), not a configuration error. -/
theorem interactor_files_shape_totality :
    (∀ (files : ConfigFiles) (root : String),
      (∃ fs, generate_interactor_filenames files root = .ok fs) ↔ files ≠ .other) ∧
    (∀ root : String,
      generate_interactor_filenames .other root = .error (.unboundLocal "filenames")) := by
  constructor
  · intro files root
    cases files <;> simp [generate_interactor_filenames]
  · intro root
    rfl

/-! ## Concrete fixtures for counterexamples and witnesses -/

/-- A checker without `run_on_error` that always accepts. -/
def w_checker_true : Checker :=
  { run_on_error := false, run := fun _ _ _ => .ok (.ofBool true) }

/-- A `run_on_error` checker that always accepts. -/
def w_checker_roe_true : Checker :=
  { run_on_error := true, run := fun _ _ _ => .ok (.ofBool true) }

/-- A checker returning a rich result worth 2 points. -/
def w_checker_rich2 : Checker :=
  { run_on_error := false, run := fun _ _ _ => .ok (.ofResult { passed := true, points := 2 }) }

/-- A one-point test case with a 100-byte output limit. -/
def w_case1 : TestCase := { points := 1, config := { output_limit_length := 100 } }

/-- A clean run: no output, no sandbox failure flags. -/
def w_raw_clean : RawRun := { stdout := [], stderr := [] }

/-- A timed-out run: the sandbox reports the TLE flag. -/
def w_raw_tle : RawRun := { stdout := [], stderr := [], sandbox_flags := Result.TLE }

/-- C1 counterexample: the merge step of `grade` copies a rich
`CheckerResult`'s points verbatim, so a checker awarding 2 points on a
1-point case yields a final `Result.points` strictly above
`case.points` — the claimed clipping does not exist in the code. -/
theorem points_not_clipped_counterexample :
    ∃ r, grade .memfd w_checker_rich2 w_case1 w_raw_clean = .ok r ∧
      w_case1.points < r.points := by
  refine ⟨merge_check (populated .memfd w_case1 w_raw_clean)
    (normalize_check w_case1 (.ofResult { passed := true, points := 2 })), rfl, ?_⟩
  show (1 : ℚ) < 2
  norm_num

/-- C1 (amended): `grade` sets the final points to exactly the
normalized checker points; when the checker outcome is boolean
(including the guaranteed fail of a skipped checker), the final points
are at most `case.points` and are 0 on a fail — but a rich
`CheckerResult` is copied unclipped. -/
theorem points_follow_checker (mode : CaptureMode) (checker : Checker)
    (case : TestCase) (raw : RawRun) (c : CheckerOutput)
    (hc : check_result checker case (populated mode case raw) = .ok c)
    (hp : 0 ≤ case.points) :
    ∃ r, grade mode checker case raw = .ok r ∧
      r.points = (normalize_check case c).points ∧
      (∀ b, c = .ofBool b → r.points ≤ case.points ∧ (b = false → r.points = 0)) := by
  refine ⟨merge_check (populated mode case raw) (normalize_check case c), ?_, rfl, ?_⟩
  · unfold grade
    rw [hc]
  · rintro b rfl
    cases b
    · exact ⟨by simpa [merge_check, normalize_check] using hp, fun _ => rfl⟩
    · refine ⟨le_of_eq ?_, fun h => by cases h⟩
      simp [merge_check, normalize_check]

/-- Witness for C1 (amended): a timed-out submission with a checker
lacking `run_on_error` ends with 0 points, below the case's 1 point. -/
theorem points_follow_checker_witness :
    ∃ r, grade .memfd w_checker_true w_case1 w_raw_tle = .ok r ∧
      r.points = (normalize_check w_case1 (.ofBool false)).points ∧
      (∀ b, CheckerOutput.ofBool false = .ofBool b →
        r.points ≤ w_case1.points ∧ (b = false → r.points = 0)) :=
  points_follow_checker .memfd w_checker_true w_case1 w_raw_tle (.ofBool false)
    (by rfl) (by norm_num [w_case1])

/-- C3 counterexample: a `run_on_error` checker that accepts although
the submission already failed (sandbox TLE flag): the verdict flag OR'd
at the end of `grade` is AC, not the WA the claim requires, so "AC iff
(did not already fail) and (checker passed)" is false on the code. -/
theorem ac_despite_failure_counterexample :
    (populated .memfd w_case1 w_raw_tle).result_flag ≠ 0 ∧
    check_result w_checker_roe_true w_case1 (populated .memfd w_case1 w_raw_tle) =
      .ok (.ofBool true) ∧
    verdict_flag (normalize_check w_case1 (.ofBool true)) = Result.AC ∧
    Result.AC ≠ Result.WA ∧
    ∃ r, grade .memfd w_checker_roe_true w_case1 w_raw_tle = .ok r ∧
      r.result_flag = Result.TLE ||| Result.AC := by
  refine ⟨by decide, by rfl, by rfl, by decide, ?_⟩
  exact ⟨merge_check (populated .memfd w_case1 w_raw_tle)
    (normalize_check w_case1 (.ofBool true)), rfl, by decide⟩

/-- C3 (amended): the verdict flag OR'd at the end of `grade` is AC
exactly when the normalized checker judgment passed.  For a checker
without `run_on_error` a passing judgment implies the submission had not
already failed, and in the bridged interactive grader the gate
`(not result.result_flag) and parsed_result` forces a fail whenever the
submission already failed; a boolean `True` normalizes to a full-points
pass and `False` to a zero-point fail.  (A `run_on_error` checker that
passes on an already-failed submission does cause AC to be OR'd.) -/
theorem verdict_flag_spec :
    (∀ (case : TestCase) (c : CheckerOutput),
      verdict_flag (normalize_check case c) = Result.AC ↔
        (normalize_check case c).passed = true) ∧
    (∀ (mode : CaptureMode) (checker : Checker) (case : TestCase) (raw : RawRun)
      (c : CheckerOutput), checker.run_on_error = false →
      check_result checker case (populated mode case raw) = .ok c →
      (normalize_check case c).passed = true →
      (populated mode case raw).result_flag = 0) ∧
    (∀ (parsed : CheckerOutput) (result : Result) (case : TestCase) (out : CheckerOutput),
      result.result_flag ≠ 0 →
      bridged_check_result (.ok parsed) result = .ok out →
      (normalize_check case out).passed = false) ∧
    (∀ case : TestCase,
      normalize_check case (.ofBool true) = { passed := true, points := case.points } ∧
      normalize_check case (.ofBool false) = zero_fail_result) := by
  refine ⟨?_, ?_, ?_, ?_⟩
  · intro case c
    cases h : (normalize_check case c).passed <;>
      simp [verdict_flag, h, Result.AC, Result.WA]
  · intro mode checker case raw c hroe hc hpass
    by_contra hf
    have hinv : check_result_invoked checker (populated mode case raw) = false := by
      simp [check_result_invoked, hf, hroe]
    rw [check_result_skipped checker case _ hinv] at hc
    injection hc with hc
    rw [← hc] at hpass
    simp [normalize_check] at hpass
  · intro parsed result case out hf hb
    simp [bridged_check_result, hf] at hb
    rw [← hb]
    rfl
  · intro case
    exact ⟨rfl, rfl⟩

/-- Witness for C3 (amended): a clean run with an ordinary accepting
checker passed, so the populated flag must have been clear. -/
theorem verdict_flag_spec_witness :
    (populated .memfd w_case1 w_raw_clean).result_flag = 0 :=
  verdict_flag_spec.2.1 .memfd w_checker_true w_case1 w_raw_clean (.ofBool true)
    rfl (by rfl) (by rfl)

/-- C6: the interactive interaction step waits for the submission
process and then for the interactor process before reading the
submission stderr and returning, so under the blocking-wait timing model
the return time is at least both termination times, whichever order the
two processes terminate in; on the success trace both wait events
precede the terminal stderr read. -/
theorem interactive_waits_for_both :
    (∀ now t_sub t_int : Nat,
      t_sub ≤ bridged_return_time now t_sub t_int ∧
      t_int ≤ bridged_return_time now t_sub t_int) ∧
    (BEv.wait_sub ∈ bridged_grade_events true true ∧
      BEv.wait_int ∈ bridged_grade_events true true ∧
      BEv.read_stderr ∈ bridged_grade_events true true ∧
      (bridged_grade_events true true).indexOf .wait_sub <
        (bridged_grade_events true true).indexOf .read_stderr ∧
      (bridged_grade_events true true).indexOf .wait_int <
        (bridged_grade_events true true).indexOf .read_stderr) := by
  constructor
  · intro now t_sub t_int
    constructor
    · exact le_trans (Nat.le_max_right now t_sub) (Nat.le_max_left _ t_int)
    · exact Nat.le_max_right _ t_int
  · refine ⟨by decide, by decide, by decide, by decide, by decide⟩

/-- C9 counterexample: when the interactor launch raises, the exception
propagates out of the interactive grading call while the judge-held
pipe descriptors 3 and 6 are still open — only the scope-guarded answer
temp file is released — so "all pipe descriptors are closed on every
error exit path" is false on the code. -/
theorem pipe_leak_counterexample :
    BEv.raiseExc ∈ bridged_grade_events true false ∧
    (runEvents (bridged_grade_events true false)).open_fds = [3, 6] ∧
    (runEvents (bridged_grade_events true false)).temp_open = false := by
  exact ⟨by decide, by decide, by decide⟩

lemma or_ole_and_ole_ne_zero (x : Nat) : (x ||| Result.OLE) &&& Result.OLE ≠ 0 := by
  intro h
  have h6 : ((x ||| Result.OLE) &&& Result.OLE).testBit 6 = false := by
    rw [h]
    simp
  rw [Nat.testBit_land, Nat.testBit_lor] at h6
  have h64 : Nat.testBit Result.OLE 6 = true := by decide
  rw [h64] at h6
  simp at h6

lemma ne_zero_of_and_ne_zero {x y : Nat} (h : x &&& y ≠ 0) : x ≠ 0 := by
  intro h0
  rw [h0] at h
  simp at h

lemma interact_ole_marked (mode : CaptureMode) (case : TestCase) (result : Result)
    (p : ProcState) (raw : RawRun)
    (h : raw.stdout.length > case.config.output_limit_length) :
    ((interact mode case result p raw).2.1).ole_marked = true := by
  cases mode
  · simp [interact, interact_memfd, h, ProcState.wait, ProcState.mark_ole]
  · simp [interact, interact_pipe, communicate, h, ProcState.wait, ProcState.kill,
      ProcState.mark_ole]

lemma populate_ole_flag (result : Result) (p : ProcState) (raw : RawRun)
    (h : p.ole_marked = true) :
    (populate_result result p raw).result_flag &&& Result.OLE ≠ 0 := by
  have heq : (populate_result result p raw).result_flag =
      result.result_flag ||| p.sandbox_flags ||| Result.OLE := by
    simp [populate_result, h]
  rw [heq]
  exact or_ole_and_ole_ne_zero _

/-- C7: when the captured submission output exceeds
`output_limit_length`, the memory-backed path waits first and marks OLE
post-hoc while keeping the entire captured output as `proc_output`; the
pipe path proactively kills the process (and still waits on it) inside
the bounded read, leaving `proc_output` at its empty initial value; in
both modes the populated `Result` carries the OLE flag; no error
propagates out of `grade` (for a checker without `run_on_error` the
final result is the zero-point fail); and on the pipe path the captured
stderr is always capped at 1048576 bytes. -/
theorem output_limit_enforcement (case : TestCase) (raw : RawRun) (checker : Checker)
    (h : raw.stdout.length > case.config.output_limit_length) :
    ((interact_memfd case {} { sandbox_flags := raw.sandbox_flags } raw).2.1.ole_marked = true ∧
      (interact_memfd case {} { sandbox_flags := raw.sandbox_flags } raw).2.1.waited = true ∧
      (interact_memfd case {} { sandbox_flags := raw.sandbox_flags } raw).2.1.killed = false ∧
      (interact_memfd case {} { sandbox_flags := raw.sandbox_flags } raw).1.proc_output =
        raw.stdout) ∧
    ((interact_pipe case {} { sandbox_flags := raw.sandbox_flags } raw).2.1.ole_marked = true ∧
      (interact_pipe case {} { sandbox_flags := raw.sandbox_flags } raw).2.1.killed = true ∧
      (interact_pipe case {} { sandbox_flags := raw.sandbox_flags } raw).2.1.waited = true ∧
      (interact_pipe case {} { sandbox_flags := raw.sandbox_flags } raw).2.2 = ([] : ByteSeq) ∧
      (interact_pipe case {} { sandbox_flags := raw.sandbox_flags } raw).1.proc_output =
        ([] : ByteSeq)) ∧
    (∀ mode : CaptureMode, (populated mode case raw).result_flag &&& Result.OLE ≠ 0) ∧
    (checker.run_on_error = false → ∀ mode : CaptureMode,
      ∃ r, grade mode checker case raw = .ok r ∧ r.points = 0) ∧
    (∀ (case2 : TestCase) (result2 : Result) (p2 : ProcState) (raw2 : RawRun),
      ((interact_pipe case2 result2 p2 raw2).2.2).length ≤ 1048576) := by
  have hole : ∀ mode : CaptureMode, (populated mode case raw).result_flag &&& Result.OLE ≠ 0 := by
    intro mode
    unfold populated
    exact populate_ole_flag _ _ _
      (interact_ole_marked mode case {} { sandbox_flags := raw.sandbox_flags } raw h)
  refine ⟨⟨?_, ?_, ?_, rfl⟩, ⟨?_, ?_, ?_, ?_, ?_⟩, hole, ?_, ?_⟩
  · simp [interact_memfd, h, ProcState.wait, ProcState.mark_ole]
  · simp [interact_memfd, h, ProcState.wait, ProcState.mark_ole]
  · simp [interact_memfd, h, ProcState.wait, ProcState.mark_ole]
  · simp [interact_pipe, communicate, h, ProcState.wait, ProcState.kill, ProcState.mark_ole]
  · simp [interact_pipe, communicate, h, ProcState.wait, ProcState.kill, ProcState.mark_ole]
  · simp [interact_pipe, communicate, h, ProcState.wait, ProcState.kill, ProcState.mark_ole]
  · simp [interact_pipe, communicate, h]
  · simp [interact_pipe, communicate, h]
  · intro hroe mode
    have hf : (populated mode case raw).result_flag ≠ 0 :=
      ne_zero_of_and_ne_zero (hole mode)
    have hinv : check_result_invoked checker (populated mode case raw) = false := by
      simp [check_result_invoked, hf, hroe]
    refine ⟨merge_check (populated mode case raw) (normalize_check case (.ofBool false)),
      ?_, rfl⟩
    unfold grade
    rw [check_result_skipped checker case _ hinv]
  · intro case2 result2 p2 raw2
    unfold interact_pipe communicate
    by_cases hc : raw2.stdout.length > case2.config.output_limit_length
    · simp [hc]
    · simp only [hc, if_false, ite_false]
      show ((raw2.stderr).take 1048576).length ≤ 1048576
      rw [List.length_take]
      exact Nat.min_le_left _ _

/-- Witness for C7: a 3-byte output on a 2-byte limit marks the
memory-backed process OLE. -/
theorem output_limit_enforcement_witness :
    (interact_memfd { points := 1, config := { output_limit_length := 2 } } {}
      { sandbox_flags := RawRun.sandbox_flags { stdout := [1, 2, 3], stderr := [] } }
      { stdout := [1, 2, 3], stderr := [] }).2.1.ole_marked = true :=
  (output_limit_enforcement { points := 1, config := { output_limit_length := 2 } }
    { stdout := [1, 2, 3], stderr := [] } w_checker_true (by decide)).1.1

/-- C9 (amended): on the success path every pipe descriptor and the
answer temp file are released by the time the interactive `grade`
returns, with the judge-held ends of both pipes closed immediately
after each process handoff (the two closes directly follow the
corresponding launch); the scope-guarded temp file is released on every
exit path — but pipe descriptors leak when a launch raises. -/
theorem resources_released :
    (runEvents (bridged_grade_events true true)).open_fds = [] ∧
    (runEvents (bridged_grade_events true true)).temp_open = false ∧
    (∀ s i : Bool, (runEvents (bridged_grade_events s i)).temp_open = false) ∧
    (bridged_grade_events true true).indexOf (.close 5) =
      (bridged_grade_events true true).indexOf .launch_sub + 1 ∧
    (bridged_grade_events true true).indexOf (.close 4) =
      (bridged_grade_events true true).indexOf .launch_sub + 2 ∧
    (bridged_grade_events true true).indexOf (.close 3) =
      (bridged_grade_events true true).indexOf .launch_int + 1 ∧
    (bridged_grade_events true true).indexOf (.close 6) =
      (bridged_grade_events true true).indexOf .launch_int + 2 := by
  refine ⟨by decide, by decide, ?_, by decide, by decide, by decide, by decide⟩
  intro s i
  cases s <;> cases i <;> decide

end Judge
